import Mathlib

/-!
Shallow embedding of `src/index.js` of the getCookies repository.

The file embeds the two functions of the source, `getBrowser` and
`getCookies`, as pure Lean functions.  Calls into the external
browser-automation engine (puppeteer) and into the file system are modelled
by an oracle record `Engine` that fixes, for one invocation, the outcome of
every external call; each embedded function additionally returns the trace
of external actions it attempted, so that statements such as "never attempts
launch" or "the handle is released exactly once" can be expressed.
-/

namespace GetCookies

/-- A cookie record as produced by the browser engine (shape documented in
the source's doc comment: name, value, domain, path, expires, httpOnly,
secure, sameSite). -/
structure Cookie where
  name : String
  value : String
  domain : String
  path : String
  expires : Option Int
  httpOnly : Bool
  secure : Bool
  sameSite : Option String
deriving Repr, DecidableEq

/-- The opaque browser handle returned by `puppeteer.connect` /
`puppeteer.launch`; only its identity matters. -/
abbrev Browser := Nat

/-- A thrown JavaScript error, identified by its message. -/
structure JsError where
  message : String
deriving Repr, DecidableEq

/-- The `connectionData` parameter of `getBrowser` / `getCookies`:
`undefined` is `none`; note that the empty string is a distinct, falsy
value, kept as `some ""`. -/
structure ConnectionData where
  executablePath : Option String
  browserWSEndpoint : Option String
deriving Repr, DecidableEq

/-- The two environment variables read by the source:
`PUPPETEER_EXECUTABLE_PATH` and `WEBHOOK_URL` (`none` = unset). -/
structure Env where
  puppeteerExecutablePath : Option String
  webhookUrl : Option String
deriving Repr, DecidableEq

/-- JavaScript truthiness of a string-or-undefined value: `undefined` and
the empty string are falsy, every other string is truthy. -/
def truthy : Option String → Bool
  | none => false
  | some s => s ≠ ""

/-- JavaScript `a || b` on string-or-undefined values: `a` when truthy,
otherwise `b` (even when `b` is itself falsy). -/
def jsOr (a b : Option String) : Option String :=
  if truthy a then a else b

/-- One attempted call to an external collaborator (browser engine or file
system).  `writeFile` records the cookie list whose serialization
(`JSON.stringify(cookies, null, 2)`) is the written content. -/
inductive Action where
  | connect (endpoint : String)
  | launch (executablePath : String) (headless : Bool)
  | setCookies (cookies : List Cookie)
  | newPage
  | goto (url : String)
  | writeFile (path : String) (data : List Cookie)
  | disconnect
  | close
deriving Repr, DecidableEq

/-- Oracle fixing the outcome of every external call during one invocation:
what `puppeteer.connect` / `puppeteer.launch` / `browser.setCookie` /
`browser.newPage` / `page.goto` / `fs.writeFileSync` /
`browser.disconnect` / `browser.close` would do, the cookie snapshots the
`response` handler reads (in order, all delivered before closure), and the
error with which the indefinite `page.waitForFunction` wait is torn down
when the browser is closed. -/
structure Engine where
  connectResult : String → Except JsError Browser
  launchResult : String → Bool → Except JsError Browser
  setCookieResult : List Cookie → Except JsError Unit
  newPageResult : Except JsError Unit
  gotoResult : String → Except JsError Unit
  responseSnapshots : List (List Cookie)
  closeSignal : JsError
  writeResult : String → Except JsError Unit
  disconnectResult : Except JsError Unit
  closeResult : Except JsError Unit

/-- The message of the error thrown when neither connection method is
available (source line 77). -/
def configErrorMsg : String :=
  "Set either PUPPETEER_EXECUTABLE_PATH or WEBHOOK_URL environment variable"

/-- The acquisition branch of `getBrowser` (source lines 38–78): resolve
each connection field with `||` against its environment fallback, attempt
remote connect when the endpoint is truthy, else local launch (with
`headless: false`) when the executable path is truthy, else throw the
configuration error before attempting anything. -/
def acquirePhase (eng : Engine) (env : Env) (connectionData : ConnectionData) :
    List Action × Except JsError Browser :=
  let binaryPath := env.puppeteerExecutablePath
  let webhookUrl := env.webhookUrl
  let executablePath := jsOr connectionData.executablePath binaryPath
  let browserWSEndpoint := jsOr connectionData.browserWSEndpoint webhookUrl
  if truthy browserWSEndpoint then
    let ep := browserWSEndpoint.getD ""
    ([Action.connect ep], eng.connectResult ep)
  else if truthy executablePath then
    let p := executablePath.getD ""
    ([Action.launch p false], eng.launchResult p false)
  else
    ([], Except.error ⟨configErrorMsg⟩)

/-- The seeding step of `getBrowser` (source lines 85–89): given the
acquisition outcome, when it succeeded and `cookies` is non-empty, perform
the single batched `browser.setCookie(...cookies)` call; its failure
propagates (there is no surrounding try/catch). -/
def seedCookies (eng : Engine) (cookies : List Cookie) :
    List Action × Except JsError Browser → List Action × Except JsError Browser
  | (tr, Except.error e) => (tr, Except.error e)
  | (tr, Except.ok browser) =>
    if cookies.length > 0 then
      match eng.setCookieResult cookies with
      | Except.error e => (tr ++ [Action.setCookies cookies], Except.error e)
      | Except.ok _ => (tr ++ [Action.setCookies cookies], Except.ok browser)
    else
      (tr, Except.ok browser)

/-- Embedding of `getBrowser(connectionData, cookies)` (source lines
32–90): the acquisition branch followed by the optional batched cookie
seeding.  Returns the trace of attempted external actions together with the
result. -/
def getBrowser (eng : Engine) (env : Env) (connectionData : ConnectionData)
    (cookies : List Cookie) : List Action × Except JsError Browser :=
  seedCookies eng cookies (acquirePhase eng env connectionData)

/-- Embedding of `getCookies(url, connectionData, cookieSavePath,
defaultCookies)` (source lines 146–210).  Mirrors the source's control
flow: the remote-mode flag is computed first from
`connectionData.browserWSEndpoint || process.env.WEBHOOK_URL`; a failure of
`getBrowser`, `browser.newPage()` or `page.goto(url)` propagates
immediately (all three run before the `try` block, so the `finally` cleanup
is not reached for them); otherwise the `response` handler overwrites the
`cookies` variable with each snapshot, the indefinite wait ends by throwing
the closure signal, the `catch` block writes the file when `cookieSavePath`
is truthy (a write failure propagates after `finally`) and returns the
captured cookies, and the `finally` block attempts `disconnect` (remote) or
`close` (local), swallowing any error from the release call itself. -/
def getCookies (eng : Engine) (env : Env) (url : String)
    (connectionData : ConnectionData) (cookieSavePath : String)
    (defaultCookies : List Cookie) : List Action × Except JsError (List Cookie) :=
  let browserWSEndpoint := jsOr connectionData.browserWSEndpoint env.webhookUrl
  let isConnectedBrowser := truthy browserWSEndpoint
  match getBrowser eng env connectionData defaultCookies with
  | (tr, Except.error e) => (tr, Except.error e)
  | (tr, Except.ok _browser) =>
    match eng.newPageResult with
    | Except.error e => (tr ++ [Action.newPage], Except.error e)
    | Except.ok _ =>
      let tr := tr ++ [Action.newPage]
      match eng.gotoResult url with
      | Except.error e => (tr ++ [Action.goto url], Except.error e)
      | Except.ok _ =>
        let tr := tr ++ [Action.goto url]
        let cookies := (eng.responseSnapshots.getLast?).getD []
        let catchStep : List Action × Except JsError (List Cookie) :=
          if cookieSavePath ≠ "" then
            match eng.writeResult cookieSavePath with
            | Except.error e =>
              ([Action.writeFile cookieSavePath cookies], Except.error e)
            | Except.ok _ =>
              ([Action.writeFile cookieSavePath cookies], Except.ok cookies)
          else
            ([], Except.ok cookies)
        let finallyStep : List Action :=
          if isConnectedBrowser then [Action.disconnect] else [Action.close]
        (tr ++ catchStep.1 ++ finallyStep, catchStep.2)

/-- Is this action a handle-release attempt (disconnect or close)? -/
def isRelease : Action → Bool
  | Action.disconnect => true
  | Action.close => true
  | _ => false

/-- Is this action a remote-connect attempt? -/
def isConnect : Action → Bool
  | Action.connect _ => true
  | _ => false

/-- Is this action a local-launch attempt? -/
def isLaunch : Action → Bool
  | Action.launch _ _ => true
  | _ => false

/-- Is this action a file-write attempt? -/
def isWrite : Action → Bool
  | Action.writeFile _ _ => true
  | _ => false

/-- Is this action a batched cookie-seeding attempt? -/
def isSeed : Action → Bool
  | Action.setCookies _ => true
  | _ => false

/-- Number of handle-release attempts (disconnect or close) in a trace. -/
def releaseCount (tr : List Action) : Nat :=
  tr.countP isRelease

/-- Whether a trace contains a remote-connect attempt. -/
def hasConnect (tr : List Action) : Bool :=
  tr.any isConnect

/-- Whether a trace contains a local-launch attempt. -/
def hasLaunch (tr : List Action) : Bool :=
  tr.any isLaunch

/-- Whether a trace contains a file-write attempt. -/
def hasWrite (tr : List Action) : Bool :=
  tr.any isWrite

/-- Whether a trace contains a batched cookie-seeding attempt. -/
def hasSeed (tr : List Action) : Bool :=
  tr.any isSeed

/-- The cookie set held by the session's `cookies` variable at closure
time: the most recent snapshot delivered by the response handler, or the
empty list when no response event fired. -/
def lastSnapshot (eng : Engine) : List Cookie :=
  (eng.responseSnapshots.getLast?).getD []

/-! ### Concrete instances used to evaluate the model on specific inputs -/

/-- An engine for which every external call succeeds and no response event
fires. -/
def okEngine : Engine where
  connectResult := fun _ => Except.ok 0
  launchResult := fun _ _ => Except.ok 1
  setCookieResult := fun _ => Except.ok ()
  newPageResult := Except.ok ()
  gotoResult := fun _ => Except.ok ()
  responseSnapshots := []
  closeSignal := ⟨"Protocol error: Connection closed."⟩
  writeResult := fun _ => Except.ok ()
  disconnectResult := Except.ok ()
  closeResult := Except.ok ()

/-- A sample cookie record. -/
def sampleCookie : Cookie :=
  ⟨"session", "abc123", ".example.com", "/", none, false, true, some "Lax"⟩

/-- A second sample cookie record. -/
def sampleCookie2 : Cookie :=
  ⟨"csrf", "tok42", ".example.com", "/", some 1234567890, true, true, none⟩

/-- An environment with neither variable set. -/
def envNone : Env := ⟨none, none⟩

/-- An environment providing only the executable-path default. -/
def envLocal : Env := ⟨some "/usr/bin/chromium", none⟩

/-- An environment providing only the remote-endpoint default. -/
def envRemote : Env := ⟨none, some "ws://10.0.0.7:9222/devtools/browser/f00"⟩

/-- A `connectionData` argument with both fields absent. -/
def cdNone : ConnectionData := ⟨none, none⟩

/-- A `connectionData` argument supplying only an executable path. -/
def cdLocal : ConnectionData := ⟨some "/opt/chrome/chrome", none⟩

/-- A `connectionData` argument supplying only a remote endpoint. -/
def cdRemote : ConnectionData := ⟨none, some "ws://127.0.0.1:9222/devtools/browser/878b"⟩

/-! ### Trace-shape lemmas -/

theorem seedCookies_trace_eq (eng : Engine) (cookies : List Cookie)
    (p : List Action × Except JsError Browser) :
    (seedCookies eng cookies p).1 = p.1 ∨
      (seedCookies eng cookies p).1 = p.1 ++ [Action.setCookies cookies] := by
  rcases p with ⟨tr, res⟩
  cases res with
  | error e => exact Or.inl rfl
  | ok b =>
    simp only [seedCookies]
    by_cases h : cookies.length > 0
    · rw [if_pos h]
      cases eng.setCookieResult cookies with
      | error e => exact Or.inr rfl
      | ok u => exact Or.inr rfl
    · rw [if_neg h]
      exact Or.inl rfl

theorem countP_seedCookies (eng : Engine) (cookies : List Cookie)
    (p : List Action × Except JsError Browser) (q : Action → Bool)
    (hq : q (Action.setCookies cookies) = false) :
    (seedCookies eng cookies p).1.countP q = p.1.countP q := by
  rcases seedCookies_trace_eq eng cookies p with h | h <;> rw [h]
  · simp [List.countP_append, List.countP_cons, hq]

theorem any_seedCookies (eng : Engine) (cookies : List Cookie)
    (p : List Action × Except JsError Browser) (q : Action → Bool)
    (hq : q (Action.setCookies cookies) = false) :
    (seedCookies eng cookies p).1.any q = p.1.any q := by
  rcases seedCookies_trace_eq eng cookies p with h | h <;> rw [h]
  · simp [List.any_append, hq]

theorem releaseCount_getBrowser (eng : Engine) (env : Env)
    (cd : ConnectionData) (dc : List Cookie) :
    releaseCount (getBrowser eng env cd dc).1 = 0 := by
  rw [getBrowser, releaseCount, countP_seedCookies eng dc _ isRelease rfl]
  simp only [acquirePhase]
  split
  · rfl
  split
  · rfl
  · rfl

theorem hasWrite_getBrowser (eng : Engine) (env : Env)
    (cd : ConnectionData) (dc : List Cookie) :
    hasWrite (getBrowser eng env cd dc).1 = false := by
  rw [getBrowser, hasWrite, any_seedCookies eng dc _ isWrite rfl]
  simp only [acquirePhase]
  split
  · rfl
  split
  · rfl
  · rfl

/-! ### Control-flow lemmas for `getCookies` -/

theorem getCookies_eq_of_getBrowser_error (eng : Engine) (env : Env)
    (url : String) (cd : ConnectionData) (path : String) (dc : List Cookie)
    (trB : List Action) (e : JsError)
    (hacq : getBrowser eng env cd dc = (trB, Except.error e)) :
    getCookies eng env url cd path dc = (trB, Except.error e) := by
  simp only [getCookies, hacq]

theorem getCookies_eq_of_newPage_error (eng : Engine) (env : Env)
    (url : String) (cd : ConnectionData) (path : String) (dc : List Cookie)
    (trB : List Action) (b : Browser) (e : JsError)
    (hacq : getBrowser eng env cd dc = (trB, Except.ok b))
    (hnp : eng.newPageResult = Except.error e) :
    getCookies eng env url cd path dc = (trB ++ [Action.newPage], Except.error e) := by
  simp only [getCookies, hacq, hnp]

theorem getCookies_eq_of_goto_error (eng : Engine) (env : Env)
    (url : String) (cd : ConnectionData) (path : String) (dc : List Cookie)
    (trB : List Action) (b : Browser) (e : JsError)
    (hacq : getBrowser eng env cd dc = (trB, Except.ok b))
    (hnp : eng.newPageResult = Except.ok ())
    (hgoto : eng.gotoResult url = Except.error e) :
    getCookies eng env url cd path dc =
      (trB ++ [Action.newPage, Action.goto url], Except.error e) := by
  simp [getCookies, hacq, hnp, hgoto]

theorem getCookies_eq_of_success (eng : Engine) (env : Env) (url : String)
    (cd : ConnectionData) (path : String) (dc : List Cookie)
    (trB : List Action) (b : Browser)
    (hacq : getBrowser eng env cd dc = (trB, Except.ok b))
    (hnp : eng.newPageResult = Except.ok ())
    (hgoto : eng.gotoResult url = Except.ok ()) :
    getCookies eng env url cd path dc =
      (trB ++ [Action.newPage, Action.goto url] ++
         (if path ≠ "" then [Action.writeFile path (lastSnapshot eng)] else []) ++
         (if truthy (jsOr cd.browserWSEndpoint env.webhookUrl) then [Action.disconnect]
          else [Action.close]),
       if path ≠ "" then
         (match eng.writeResult path with
          | Except.error e => Except.error e
          | Except.ok _ => Except.ok (lastSnapshot eng))
       else Except.ok (lastSnapshot eng)) := by
  simp only [getCookies, hacq, hnp, hgoto, lastSnapshot]
  by_cases hp : path = ""
  · subst hp
    simp
  · simp only [hp, if_pos, ne_eq, not_false_iff, if_neg]
    cases eng.writeResult path <;> simp [hp]

/-! ### Claim theorems -/

/-- C5: for every configuration in which the remote endpoint resolves to a
truthy (non-empty) value — from the `browserWSEndpoint` parameter or from
the `WEBHOOK_URL` environment default — `getBrowser` attempts a remote
connect and never attempts a local launch, even when an executable path
also resolves: remote takes priority over local. -/
theorem getBrowser_remote_priority (eng : Engine) (env : Env)
    (cd : ConnectionData) (dc : List Cookie)
    (h : truthy (jsOr cd.browserWSEndpoint env.webhookUrl) = true) :
    hasConnect (getBrowser eng env cd dc).1 = true ∧
      hasLaunch (getBrowser eng env cd dc).1 = false := by
  have hA : acquirePhase eng env cd =
      ([Action.connect ((jsOr cd.browserWSEndpoint env.webhookUrl).getD "")],
       eng.connectResult ((jsOr cd.browserWSEndpoint env.webhookUrl).getD "")) := by
    simp only [acquirePhase, h, if_true]
  constructor
  · rw [getBrowser, hasConnect, any_seedCookies eng dc _ isConnect rfl, hA]
    rfl
  · rw [getBrowser, hasLaunch, any_seedCookies eng dc _ isLaunch rfl, hA]
    rfl

/-- Witness for C5: with both a remote endpoint and an executable path
supplied, the acquirer connects and does not launch. -/
theorem getBrowser_remote_priority_witness :
    hasConnect (getBrowser okEngine envLocal
        ⟨some "/opt/chrome/chrome", some "ws://127.0.0.1:9222/devtools/browser/878b"⟩ []).1 = true ∧
      hasLaunch (getBrowser okEngine envLocal
        ⟨some "/opt/chrome/chrome", some "ws://127.0.0.1:9222/devtools/browser/878b"⟩ []).1 = false :=
  getBrowser_remote_priority okEngine envLocal
    ⟨some "/opt/chrome/chrome", some "ws://127.0.0.1:9222/devtools/browser/878b"⟩ [] (by decide)

/-- C6: when neither the remote-endpoint nor the executable-path parameter
resolves to a truthy value and neither environment default exists, the call
fails with the configuration error, with an empty action trace: no
connection and no process launch is attempted. -/
theorem getBrowser_config_error (eng : Engine) (env : Env)
    (cd : ConnectionData) (dc : List Cookie)
    (h1 : truthy (jsOr cd.browserWSEndpoint env.webhookUrl) = false)
    (h2 : truthy (jsOr cd.executablePath env.puppeteerExecutablePath) = false) :
    getBrowser eng env cd dc = ([], Except.error ⟨configErrorMsg⟩) := by
  have hA : acquirePhase eng env cd = ([], Except.error ⟨configErrorMsg⟩) := by
    simp only [acquirePhase, h1, h2, if_false, Bool.false_eq_true, if_neg,
      not_false_iff]
  rw [getBrowser, hA]
  rfl

/-- Witness for C6: with both parameters absent and an empty environment,
`getBrowser` fails with the configuration error and an empty trace. -/
theorem getBrowser_config_error_witness :
    getBrowser okEngine envNone cdNone [] = ([], Except.error ⟨configErrorMsg⟩) :=
  getBrowser_config_error okEngine envNone cdNone [] (by decide) (by decide)

/-- C9: for every configuration in which no remote endpoint resolves but an
executable path does — from the parameter or from the
`PUPPETEER_EXECUTABLE_PATH` environment default — `getBrowser` attempts a
local launch with `headless: false` (a visible window) and never attempts a
remote connect; moreover every launch in the trace is non-headless. -/
theorem getBrowser_local_launch (eng : Engine) (env : Env)
    (cd : ConnectionData) (dc : List Cookie)
    (h1 : truthy (jsOr cd.browserWSEndpoint env.webhookUrl) = false)
    (h2 : truthy (jsOr cd.executablePath env.puppeteerExecutablePath) = true) :
    hasLaunch (getBrowser eng env cd dc).1 = true ∧
      hasConnect (getBrowser eng env cd dc).1 = false ∧
      Action.launch ((jsOr cd.executablePath env.puppeteerExecutablePath).getD "") false
        ∈ (getBrowser eng env cd dc).1 ∧
      ∀ p hl, Action.launch p hl ∈ (getBrowser eng env cd dc).1 → hl = false := by
  have hA : acquirePhase eng env cd =
      ([Action.launch ((jsOr cd.executablePath env.puppeteerExecutablePath).getD "") false],
       eng.launchResult ((jsOr cd.executablePath env.puppeteerExecutablePath).getD "") false) := by
    simp only [acquirePhase, h1, h2, if_true, if_false, Bool.false_eq_true, if_neg,
      not_false_iff]
  have htr := seedCookies_trace_eq eng dc (acquirePhase eng env cd)
  rw [hA] at htr
  refine ⟨?_, ?_, ?_, ?_⟩
  · rw [getBrowser, hasLaunch, any_seedCookies eng dc _ isLaunch rfl, hA]
    rfl
  · rw [getBrowser, hasConnect, any_seedCookies eng dc _ isConnect rfl, hA]
    rfl
  · rw [getBrowser, hA]
    rcases htr with h | h <;> rw [h] <;> simp
  · intro p hl hmem
    rw [getBrowser, hA] at hmem
    rcases htr with h | h <;> rw [h] at hmem <;> simp at hmem <;>
      exact hmem.2

/-- Witness for C9: with only the executable-path environment default set,
`getBrowser` launches non-headless and never connects. -/
theorem getBrowser_local_launch_witness :
    hasLaunch (getBrowser okEngine envLocal cdNone []).1 = true ∧
      hasConnect (getBrowser okEngine envLocal cdNone []).1 = false ∧
      Action.launch ((jsOr cdNone.executablePath envLocal.puppeteerExecutablePath).getD "") false
        ∈ (getBrowser okEngine envLocal cdNone []).1 ∧
      ∀ p hl, Action.launch p hl ∈ (getBrowser okEngine envLocal cdNone []).1 → hl = false :=
  getBrowser_local_launch okEngine envLocal cdNone [] (by decide) (by decide)

theorem truthy_iff (o : Option String) : truthy o = true ↔ ∃ s, o = some s ∧ s ≠ "" := by
  cases o <;> simp [truthy]

theorem jsOr_empty (b : Option String) : jsOr (some "") b = b := by
  simp [jsOr, truthy]

theorem jsOr_none (b : Option String) : jsOr none b = b := rfl

theorem connect_mem_getBrowser (eng : Engine) (env : Env) (cd : ConnectionData)
    (dc : List Cookie) (s : String)
    (hmem : Action.connect s ∈ (getBrowser eng env cd dc).1) :
    truthy (jsOr cd.browserWSEndpoint env.webhookUrl) = true ∧
      s = (jsOr cd.browserWSEndpoint env.webhookUrl).getD "" := by
  rw [getBrowser] at hmem
  rcases seedCookies_trace_eq eng dc (acquirePhase eng env cd) with h | h <;> rw [h] at hmem
  · by_cases ht : truthy (jsOr cd.browserWSEndpoint env.webhookUrl) = true
    · have hA : acquirePhase eng env cd =
          ([Action.connect ((jsOr cd.browserWSEndpoint env.webhookUrl).getD "")],
           eng.connectResult ((jsOr cd.browserWSEndpoint env.webhookUrl).getD "")) := by
        simp only [acquirePhase, ht, if_true]
      rw [hA] at hmem
      simp at hmem
      exact ⟨ht, hmem⟩
    · exfalso
      by_cases hx : truthy (jsOr cd.executablePath env.puppeteerExecutablePath) = true
      · have hA : acquirePhase eng env cd =
            ([Action.launch ((jsOr cd.executablePath env.puppeteerExecutablePath).getD "") false],
             eng.launchResult ((jsOr cd.executablePath env.puppeteerExecutablePath).getD "") false) := by
          simp only [acquirePhase]
          simp [Bool.not_eq_true] at ht
          simp [ht, hx]
        rw [hA] at hmem
        simp at hmem
      · have hA : acquirePhase eng env cd = ([], Except.error ⟨configErrorMsg⟩) := by
          simp only [acquirePhase]
          simp [Bool.not_eq_true] at ht hx
          simp [ht, hx]
        rw [hA] at hmem
        simp at hmem
  · by_cases ht : truthy (jsOr cd.browserWSEndpoint env.webhookUrl) = true
    · have hA : acquirePhase eng env cd =
          ([Action.connect ((jsOr cd.browserWSEndpoint env.webhookUrl).getD "")],
           eng.connectResult ((jsOr cd.browserWSEndpoint env.webhookUrl).getD "")) := by
        simp only [acquirePhase, ht, if_true]
      rw [hA] at hmem
      simp at hmem
      exact ⟨ht, hmem⟩
    · exfalso
      by_cases hx : truthy (jsOr cd.executablePath env.puppeteerExecutablePath) = true
      · have hA : acquirePhase eng env cd =
            ([Action.launch ((jsOr cd.executablePath env.puppeteerExecutablePath).getD "") false],
             eng.launchResult ((jsOr cd.executablePath env.puppeteerExecutablePath).getD "") false) := by
          simp only [acquirePhase]
          simp [Bool.not_eq_true] at ht
          simp [ht, hx]
        rw [hA] at hmem
        simp at hmem
      · have hA : acquirePhase eng env cd = ([], Except.error ⟨configErrorMsg⟩) := by
          simp only [acquirePhase]
          simp [Bool.not_eq_true] at ht hx
          simp [ht, hx]
        rw [hA] at hmem
        simp at hmem

/-- C10: supplying `connectionData.browserWSEndpoint` (respectively
`connectionData.executablePath`) as the empty string behaves exactly as
leaving it absent — resolution uses JS truthiness, so the environment
default (`WEBHOOK_URL`, respectively `PUPPETEER_EXECUTABLE_PATH`) is used
in its place, both in `getBrowser` and in `getCookies`' remote-mode
decision — and an empty-string endpoint is never passed to connect. -/
theorem emptyString_param_treated_as_absent (eng : Engine) (env : Env)
    (url path : String) (dc : List Cookie) (ep ws : Option String) :
    getBrowser eng env ⟨ep, some ""⟩ dc = getBrowser eng env ⟨ep, none⟩ dc ∧
    getBrowser eng env ⟨some "", ws⟩ dc = getBrowser eng env ⟨none, ws⟩ dc ∧
    getCookies eng env url ⟨ep, some ""⟩ path dc =
      getCookies eng env url ⟨ep, none⟩ path dc ∧
    getCookies eng env url ⟨some "", ws⟩ path dc =
      getCookies eng env url ⟨none, ws⟩ path dc ∧
    (∀ w, env.webhookUrl = some w → w ≠ "" →
       Action.connect w ∈ (getBrowser eng env ⟨ep, some ""⟩ dc).1) ∧
    Action.connect "" ∉ (getBrowser eng env ⟨ep, some ""⟩ dc).1 := by
  have hgb : ∀ cd cd' : ConnectionData,
      jsOr cd.browserWSEndpoint env.webhookUrl = jsOr cd'.browserWSEndpoint env.webhookUrl →
      jsOr cd.executablePath env.puppeteerExecutablePath =
        jsOr cd'.executablePath env.puppeteerExecutablePath →
      getBrowser eng env cd dc = getBrowser eng env cd' dc := by
    intro cd cd' hws hep
    rw [getBrowser, getBrowser]
    congr 1
    simp only [acquirePhase]
    rw [hws, hep]
  have hgc : ∀ cd cd' : ConnectionData,
      jsOr cd.browserWSEndpoint env.webhookUrl = jsOr cd'.browserWSEndpoint env.webhookUrl →
      jsOr cd.executablePath env.puppeteerExecutablePath =
        jsOr cd'.executablePath env.puppeteerExecutablePath →
      getCookies eng env url cd path dc = getCookies eng env url cd' path dc := by
    intro cd cd' hws hep
    simp only [getCookies]
    rw [hws, hgb cd cd' hws hep]
  refine ⟨hgb _ _ (by rw [jsOr_empty, jsOr_none]) rfl,
          hgb _ _ rfl (by rw [jsOr_empty, jsOr_none]),
          hgc _ _ (by rw [jsOr_empty, jsOr_none]) rfl,
          hgc _ _ rfl (by rw [jsOr_empty, jsOr_none]), ?_, ?_⟩
  · intro w hw hwne
    have hres : jsOr (some "") env.webhookUrl = some w := by rw [jsOr_empty, hw]
    have ht : truthy (jsOr (ConnectionData.mk ep (some "")).browserWSEndpoint env.webhookUrl) = true := by
      simp only [hres]
      simp [truthy, hwne]
    have hA : acquirePhase eng env ⟨ep, some ""⟩ =
        ([Action.connect w], eng.connectResult w) := by
      simp only [acquirePhase, ht, if_true]
      simp [hres]
    rw [getBrowser]
    rcases seedCookies_trace_eq eng dc (acquirePhase eng env ⟨ep, some ""⟩) with h | h <;>
      rw [h, hA] <;> simp
  · intro hmem
    have hc := connect_mem_getBrowser eng env ⟨ep, some ""⟩ dc "" hmem
    rcases (truthy_iff _).mp hc.1 with ⟨s, hs, hsne⟩
    rw [hs] at hc
    exact hsne hc.2.symm

/-- Witness for C10: with `WEBHOOK_URL` set and the endpoint parameter the
empty string, `getBrowser` behaves as with the parameter absent and
connects to the environment default. -/
theorem emptyString_param_treated_as_absent_witness :
    getBrowser okEngine envRemote ⟨none, some ""⟩ [] =
      getBrowser okEngine envRemote ⟨none, none⟩ [] ∧
    Action.connect "ws://10.0.0.7:9222/devtools/browser/f00" ∈
      (getBrowser okEngine envRemote ⟨none, some ""⟩ []).1 :=
  ⟨(emptyString_param_treated_as_absent okEngine envRemote "https://example.com" ""
      [] none (some "")).1,
   (emptyString_param_treated_as_absent okEngine envRemote "https://example.com" ""
      [] none (some "")).2.2.2.2.1
     "ws://10.0.0.7:9222/devtools/browser/f00" rfl (by decide)⟩

/-- An engine identical to `okEngine` except that navigation fails. -/
def navFailEngine : Engine :=
  { okEngine with gotoResult := fun _ => Except.error ⟨"net::ERR_NAME_NOT_RESOLVED"⟩ }

/-- An engine identical to `okEngine` except that the cookie file write
fails, with one response snapshot delivered before closure. -/
def writeFailEngine : Engine :=
  { okEngine with
      responseSnapshots := [[sampleCookie]]
      writeResult := fun _ => Except.error ⟨"EACCES: permission denied"⟩ }

/-- An engine identical to `okEngine` except that the batched
`browser.setCookie` call fails. -/
def seedFailEngine : Engine :=
  { okEngine with setCookieResult := fun _ => Except.error ⟨"Invalid cookie fields"⟩ }

/-- An engine identical to `okEngine` except that two response snapshots
are delivered before closure. -/
def snapEngine : Engine :=
  { okEngine with responseSnapshots := [[sampleCookie2], [sampleCookie2, sampleCookie]] }

/-- C3: whenever `getCookies` returns a cookie set, that set is exactly the
snapshot captured at the most recent response event before closure —
wholesale replacement, no merging — and the empty sequence when no response
event ever fired. -/
theorem getCookies_last_write_wins (eng : Engine) (env : Env) (url : String)
    (cd : ConnectionData) (path : String) (dc : List Cookie) (cs : List Cookie)
    (h : (getCookies eng env url cd path dc).2 = Except.ok cs) :
    cs = lastSnapshot eng := by
  rcases hB : getBrowser eng env cd dc with ⟨trB, res⟩
  cases res with
  | error e =>
    rw [getCookies_eq_of_getBrowser_error eng env url cd path dc trB e hB] at h
    simp at h
  | ok b =>
    cases hnp : eng.newPageResult with
    | error e =>
      rw [getCookies_eq_of_newPage_error eng env url cd path dc trB b e hB hnp] at h
      simp at h
    | ok u =>
      cases u
      cases hg : eng.gotoResult url with
      | error e =>
        rw [getCookies_eq_of_goto_error eng env url cd path dc trB b e hB hnp hg] at h
        simp at h
      | ok u2 =>
        cases u2
        rw [getCookies_eq_of_success eng env url cd path dc trB b hB hnp hg] at h
        by_cases hp : path = ""
        · subst hp
          simp at h
          exact h.symm
        · simp only [hp, ne_eq, not_false_iff, if_pos] at h
          cases hw : eng.writeResult path with
          | error e =>
            rw [hw] at h
            simp at h
          | ok u3 =>
            rw [hw] at h
            simp at h
            exact h.symm

/-- Witness for C3: with two snapshots delivered, the returned set is the
second (most recent) one. -/
theorem getCookies_last_write_wins_witness :
    [sampleCookie2, sampleCookie] = lastSnapshot snapEngine :=
  getCookies_last_write_wins snapEngine envLocal "https://example.com" cdNone ""
    [] [sampleCookie2, sampleCookie] (by rfl)

/-- Counterexample to C1 as stated: at a concrete input whose navigation
fails, `getCookies` propagates the navigation error to the caller (it does
not return a cookie set) and attempts no handle release at all. -/
theorem navigation_error_propagates_cex :
    (getCookies navFailEngine envNone "https://example.com" cdLocal "" []).2 =
      Except.error ⟨"net::ERR_NAME_NOT_RESOLVED"⟩ ∧
    releaseCount (getCookies navFailEngine envNone "https://example.com" cdLocal "" []).1 = 0 :=
  ⟨rfl, rfl⟩

/-- C1 (amended): when navigation fails after successful acquisition and
page creation, `getCookies` propagates the navigation error immediately:
the result is that error, no handle release is attempted and no persistence
write occurs (the `page.goto` call sits before the try/finally block, so
the wait/persist/cleanup path is skipped). -/
theorem getCookies_navigation_failure_aborts (eng : Engine) (env : Env)
    (url : String) (cd : ConnectionData) (path : String) (dc : List Cookie)
    (trB : List Action) (b : Browser) (e : JsError)
    (hacq : getBrowser eng env cd dc = (trB, Except.ok b))
    (hnp : eng.newPageResult = Except.ok ())
    (hgoto : eng.gotoResult url = Except.error e) :
    (getCookies eng env url cd path dc).2 = Except.error e ∧
    releaseCount (getCookies eng env url cd path dc).1 = 0 ∧
    hasWrite (getCookies eng env url cd path dc).1 = false := by
  have hEq := getCookies_eq_of_goto_error eng env url cd path dc trB b e hacq hnp hgoto
  rw [hEq]
  have h0 : releaseCount trB = 0 := by
    have h := releaseCount_getBrowser eng env cd dc
    rw [hacq] at h
    exact h
  have hWB : hasWrite trB = false := by
    have h := hasWrite_getBrowser eng env cd dc
    rw [hacq] at h
    exact h
  have hmid0 : List.countP isRelease [Action.newPage, Action.goto url] = 0 := rfl
  have hmidW : List.any [Action.newPage, Action.goto url] isWrite = false := rfl
  rw [releaseCount] at h0
  rw [hasWrite] at hWB
  refine ⟨rfl, ?_, ?_⟩
  · rw [releaseCount]
    simp [List.countP_append, h0, hmid0]
  · rw [hasWrite]
    simp [List.any_append, hWB, hmidW]

/-- Witness for C1's amended theorem at a concrete remote-mode input. -/
theorem getCookies_navigation_failure_aborts_witness :
    (getCookies navFailEngine envRemote "https://example.com" cdNone "./c.json" []).2 =
      Except.error ⟨"net::ERR_NAME_NOT_RESOLVED"⟩ ∧
    releaseCount (getCookies navFailEngine envRemote "https://example.com" cdNone "./c.json" []).1 = 0 ∧
    hasWrite (getCookies navFailEngine envRemote "https://example.com" cdNone "./c.json" []).1 = false :=
  getCookies_navigation_failure_aborts navFailEngine envRemote "https://example.com"
    cdNone "./c.json" [] [Action.connect "ws://10.0.0.7:9222/devtools/browser/f00"] 0
    ⟨"net::ERR_NAME_NOT_RESOLVED"⟩ (by rfl) rfl rfl

/-- Is this action specifically a remote disconnect? -/
def isDisconnect : Action → Bool
  | Action.disconnect => true
  | _ => false

/-- Is this action specifically a local close? -/
def isClose : Action → Bool
  | Action.close => true
  | _ => false

theorem isRelease_of_isDisconnect (a : Action) (h : isDisconnect a = true) :
    isRelease a = true := by
  cases a <;> simp [isDisconnect, isRelease] at h ⊢

theorem isRelease_of_isClose (a : Action) (h : isClose a = true) :
    isRelease a = true := by
  cases a <;> simp [isDisconnect, isClose, isRelease] at h ⊢

theorem countP_disconnect_close_of_releaseCount_zero (tr : List Action)
    (h : releaseCount tr = 0) :
    tr.countP isDisconnect = 0 ∧ tr.countP isClose = 0 := by
  rw [releaseCount, List.countP_eq_zero] at h
  constructor <;> rw [List.countP_eq_zero] <;> intro a ha hd
  · exact h a ha (isRelease_of_isDisconnect a hd)
  · exact h a ha (isRelease_of_isClose a hd)

theorem releaseCount_getCookies_success (eng : Engine) (env : Env)
    (url : String) (cd : ConnectionData) (path : String) (dc : List Cookie)
    (trB : List Action) (b : Browser)
    (hacq : getBrowser eng env cd dc = (trB, Except.ok b))
    (hnp : eng.newPageResult = Except.ok ())
    (hgoto : eng.gotoResult url = Except.ok ()) :
    releaseCount (getCookies eng env url cd path dc).1 = 1 := by
  rw [getCookies_eq_of_success eng env url cd path dc trB b hacq hnp hgoto]
  have h0 : releaseCount trB = 0 := by
    have h := releaseCount_getBrowser eng env cd dc
    rw [hacq] at h
    exact h
  rw [releaseCount] at h0 ⊢
  have hmid : List.countP isRelease [Action.newPage, Action.goto url] = 0 := rfl
  have hW : List.countP isRelease
      (if path ≠ "" then [Action.writeFile path (lastSnapshot eng)] else []) = 0 := by
    split <;> rfl
  have hF : List.countP isRelease
      (if truthy (jsOr cd.browserWSEndpoint env.webhookUrl) then [Action.disconnect]
       else [Action.close]) = 1 := by
    split <;> rfl
  rw [List.countP_append, List.countP_append, List.countP_append, h0, hmid, hW, hF]

/-- C2 (amended): on the normal closure path — acquisition, page creation
and navigation all succeed, the wait ends with the closure signal — the
handle is released exactly once: one disconnect and no close in remote
mode, one close and no disconnect in local mode.  (On failures before the
try block — page creation or navigation — no release happens at all; see
the C1/C2 counterexamples.) -/
theorem getCookies_release_exactly_once (eng : Engine) (env : Env)
    (url : String) (cd : ConnectionData) (path : String) (dc : List Cookie)
    (trB : List Action) (b : Browser)
    (hacq : getBrowser eng env cd dc = (trB, Except.ok b))
    (hnp : eng.newPageResult = Except.ok ())
    (hgoto : eng.gotoResult url = Except.ok ()) :
    releaseCount (getCookies eng env url cd path dc).1 = 1 ∧
    (getCookies eng env url cd path dc).1.countP isDisconnect =
      (if truthy (jsOr cd.browserWSEndpoint env.webhookUrl) then 1 else 0) ∧
    (getCookies eng env url cd path dc).1.countP isClose =
      (if truthy (jsOr cd.browserWSEndpoint env.webhookUrl) then 0 else 1) := by
  refine ⟨releaseCount_getCookies_success eng env url cd path dc trB b hacq hnp hgoto, ?_, ?_⟩ <;>
    rw [getCookies_eq_of_success eng env url cd path dc trB b hacq hnp hgoto] <;>
    have h0 : releaseCount trB = 0 := by
      have h := releaseCount_getBrowser eng env cd dc
      rw [hacq] at h
      exact h
  · have hB := (countP_disconnect_close_of_releaseCount_zero trB h0).1
    have hmid : List.countP isDisconnect [Action.newPage, Action.goto url] = 0 := rfl
    have hW : List.countP isDisconnect
        (if path ≠ "" then [Action.writeFile path (lastSnapshot eng)] else []) = 0 := by
      split <;> rfl
    rw [List.countP_append, List.countP_append, List.countP_append, hB, hmid, hW]
    by_cases hm : truthy (jsOr cd.browserWSEndpoint env.webhookUrl) = true
    · rw [if_pos hm, if_pos hm]
      rfl
    · rw [if_neg hm, if_neg hm]
      rfl
  · have hB := (countP_disconnect_close_of_releaseCount_zero trB h0).2
    have hmid : List.countP isClose [Action.newPage, Action.goto url] = 0 := rfl
    have hW : List.countP isClose
        (if path ≠ "" then [Action.writeFile path (lastSnapshot eng)] else []) = 0 := by
      split <;> rfl
    rw [List.countP_append, List.countP_append, List.countP_append, hB, hmid, hW]
    by_cases hm : truthy (jsOr cd.browserWSEndpoint env.webhookUrl) = true
    · rw [if_pos hm, if_pos hm]
      rfl
    · rw [if_neg hm, if_neg hm]
      rfl

/-- Counterexample to C2 as stated: on the navigation-failure exit path of
a concrete invocation the handle is not released at all (zero release
attempts), so release is not unconditional across all exit paths. -/
theorem release_skipped_on_navigation_failure_cex :
    releaseCount (getCookies navFailEngine envLocal "https://example.org" cdNone "" []).1 = 0 ∧
    (getCookies navFailEngine envLocal "https://example.org" cdNone "" []).2 =
      Except.error ⟨"net::ERR_NAME_NOT_RESOLVED"⟩ :=
  ⟨rfl, rfl⟩

/-- Witness for C2's amended theorem at a concrete remote-mode input. -/
theorem getCookies_release_exactly_once_witness :
    releaseCount (getCookies okEngine envNone "https://example.com" cdRemote "" []).1 = 1 ∧
    (getCookies okEngine envNone "https://example.com" cdRemote "" []).1.countP isDisconnect =
      (if truthy (jsOr cdRemote.browserWSEndpoint envNone.webhookUrl) then 1 else 0) ∧
    (getCookies okEngine envNone "https://example.com" cdRemote "" []).1.countP isClose =
      (if truthy (jsOr cdRemote.browserWSEndpoint envNone.webhookUrl) then 0 else 1) :=
  getCookies_release_exactly_once okEngine envNone "https://example.com" cdRemote "" []
    [Action.connect "ws://127.0.0.1:9222/devtools/browser/878b"] 0 (by rfl) rfl rfl

/-- Counterexample to C4 as stated: at a concrete input whose cookie-file
write fails, the caller receives the write error, not the captured
CookieSet — even though the handle release still happens (one release
attempt in the trace). -/
theorem write_failure_changes_return_cex :
    (getCookies writeFailEngine envNone "https://example.com" cdLocal "./out.json" []).2 =
      Except.error ⟨"EACCES: permission denied"⟩ ∧
    releaseCount (getCookies writeFailEngine envNone "https://example.com" cdLocal "./out.json" []).1 = 1 :=
  ⟨rfl, rfl⟩

/-- C4 (amended): when the invocation reaches the closure step with a
non-empty `cookieSavePath` and the file write fails, the failure does not
prevent the handle release — exactly one release attempt still occurs in
the `finally` block — but it changes the function's result: the write error
propagates to the caller in place of the captured CookieSet. -/
theorem getCookies_write_failure_releases_but_propagates (eng : Engine)
    (env : Env) (url : String) (cd : ConnectionData) (path : String)
    (dc : List Cookie) (trB : List Action) (b : Browser) (e : JsError)
    (hacq : getBrowser eng env cd dc = (trB, Except.ok b))
    (hnp : eng.newPageResult = Except.ok ())
    (hgoto : eng.gotoResult url = Except.ok ())
    (hpath : path ≠ "")
    (hw : eng.writeResult path = Except.error e) :
    (getCookies eng env url cd path dc).2 = Except.error e ∧
    releaseCount (getCookies eng env url cd path dc).1 = 1 := by
  refine ⟨?_, releaseCount_getCookies_success eng env url cd path dc trB b hacq hnp hgoto⟩
  rw [getCookies_eq_of_success eng env url cd path dc trB b hacq hnp hgoto]
  simp [hpath, hw]

/-- Witness for C4's amended theorem at a concrete local-mode input. -/
theorem getCookies_write_failure_releases_but_propagates_witness :
    (getCookies writeFailEngine envLocal "https://example.com" cdNone "./cookies.json" []).2 =
      Except.error ⟨"EACCES: permission denied"⟩ ∧
    releaseCount (getCookies writeFailEngine envLocal "https://example.com" cdNone "./cookies.json" []).1 = 1 :=
  getCookies_write_failure_releases_but_propagates writeFailEngine envLocal
    "https://example.com" cdNone "./cookies.json" []
    [Action.launch "/usr/bin/chromium" false] 1 ⟨"EACCES: permission denied"⟩
    (by rfl) rfl rfl (by decide) rfl

/-- C7: on the closure path, if `cookieSavePath` is non-empty the trace
contains a write of exactly the returned CookieSet (the data recorded in
the `writeFile` action is the serialized content) to that path, and when
the write succeeds the function returns that same set; if `cookieSavePath`
is the empty string, no file write is attempted at all. -/
theorem getCookies_persistence (eng : Engine) (env : Env) (url : String)
    (cd : ConnectionData) (path : String) (dc : List Cookie)
    (trB : List Action) (b : Browser)
    (hacq : getBrowser eng env cd dc = (trB, Except.ok b))
    (hnp : eng.newPageResult = Except.ok ())
    (hgoto : eng.gotoResult url = Except.ok ()) :
    (path ≠ "" →
       Action.writeFile path (lastSnapshot eng) ∈ (getCookies eng env url cd path dc).1 ∧
       (eng.writeResult path = Except.ok () →
          (getCookies eng env url cd path dc).2 = Except.ok (lastSnapshot eng))) ∧
    (path = "" → hasWrite (getCookies eng env url cd path dc).1 = false) := by
  rw [getCookies_eq_of_success eng env url cd path dc trB b hacq hnp hgoto]
  constructor
  · intro hp
    constructor
    · simp [hp]
    · intro hw
      simp [hp, hw]
  · intro hp
    subst hp
    have hWB : hasWrite trB = false := by
      have h := hasWrite_getBrowser eng env cd dc
      rw [hacq] at h
      exact h
    rw [hasWrite] at hWB
    rw [hasWrite]
    have hmid : List.any [Action.newPage, Action.goto url] isWrite = false := rfl
    have hF : List.any
        (if truthy (jsOr cd.browserWSEndpoint env.webhookUrl) then [Action.disconnect]
         else [Action.close]) isWrite = false := by
      split <;> rfl
    simp [List.any_append, hWB, hmid, hF, isWrite]

/-- Witness for C7 at a concrete input with a non-empty save path. -/
theorem getCookies_persistence_witness :
    Action.writeFile "./out.json" (lastSnapshot snapEngine) ∈
      (getCookies snapEngine envLocal "https://example.com" cdNone "./out.json" []).1 ∧
    (getCookies snapEngine envLocal "https://example.com" cdNone "./out.json" []).2 =
      Except.ok (lastSnapshot snapEngine) :=
  let h := getCookies_persistence snapEngine envLocal "https://example.com" cdNone
    "./out.json" [] [Action.launch "/usr/bin/chromium" false] 1 (by rfl) rfl rfl
  ⟨(h.1 (by decide)).1, (h.1 (by decide)).2 rfl⟩

/-- Counterexample to C8 as stated: at a concrete input whose batched
seeding call fails after a successful remote attach (the trace contains the
connect), `getCookies` aborts with the seeding error and attempts no
cleanup on the existing handle (zero release attempts). -/
theorem seeding_failure_no_cleanup_cex :
    (getCookies seedFailEngine envNone "https://example.com" cdRemote "" [sampleCookie]).2 =
      Except.error ⟨"Invalid cookie fields"⟩ ∧
    releaseCount (getCookies seedFailEngine envNone "https://example.com" cdRemote "" [sampleCookie]).1 = 0 ∧
    hasConnect (getCookies seedFailEngine envNone "https://example.com" cdRemote "" [sampleCookie]).1 = true :=
  ⟨rfl, rfl, rfl⟩

/-- C8 (amended): after a successful acquisition, a non-empty
`initialCookies` list is applied in exactly one batched `setCookie` call
appended after the acquisition actions, and no seeding call is made when
the list is empty; a failure of that call propagates as the thrown error
and aborts `getCookies` immediately — but no cleanup is attempted on the
already-acquired handle (zero release attempts). -/
theorem getBrowser_seeding_single_batched (eng : Engine) (env : Env)
    (cd : ConnectionData) (dc : List Cookie) (b : Browser)
    (hacq : (acquirePhase eng env cd).2 = Except.ok b) :
    (dc ≠ [] →
       (getBrowser eng env cd dc).1 = (acquirePhase eng env cd).1 ++ [Action.setCookies dc]) ∧
    (dc = [] → getBrowser eng env cd dc = acquirePhase eng env cd) ∧
    (∀ e, dc ≠ [] → eng.setCookieResult dc = Except.error e →
       (getBrowser eng env cd dc).2 = Except.error e ∧
       ∀ url path, (getCookies eng env url cd path dc).2 = Except.error e ∧
         releaseCount (getCookies eng env url cd path dc).1 = 0) := by
  rcases hA : acquirePhase eng env cd with ⟨trA, res⟩
  rw [hA] at hacq
  cases res with
  | error e => simp at hacq
  | ok b' =>
    refine ⟨?_, ?_, ?_⟩
    · intro hne
      have hlen : dc.length > 0 := List.length_pos.mpr hne
      rw [getBrowser, hA, seedCookies]
      simp only [if_pos hlen]
      cases eng.setCookieResult dc <;> rfl
    · intro hemp
      subst hemp
      rw [getBrowser, hA, seedCookies]
      rfl
    · intro e hne hse
      have hlen : dc.length > 0 := List.length_pos.mpr hne
      have hg : getBrowser eng env cd dc = (trA ++ [Action.setCookies dc], Except.error e) := by
        rw [getBrowser, hA, seedCookies]
        simp only [if_pos hlen, hse]
      refine ⟨by rw [hg], ?_⟩
      intro url path
      rw [getCookies_eq_of_getBrowser_error eng env url cd path dc _ e hg]
      refine ⟨rfl, ?_⟩
      have h := releaseCount_getBrowser eng env cd dc
      rw [hg] at h
      exact h

/-- Witness for C8's amended theorem: concrete remote acquisition followed
by a failing batched seeding call. -/
theorem getBrowser_seeding_single_batched_witness :
    (getBrowser seedFailEngine envNone cdRemote [sampleCookie]).1 =
      (acquirePhase seedFailEngine envNone cdRemote).1 ++ [Action.setCookies [sampleCookie]] ∧
    (getCookies seedFailEngine envNone "https://example.org" cdRemote "./x.json" [sampleCookie]).2 =
      Except.error ⟨"Invalid cookie fields"⟩ :=
  let h := getBrowser_seeding_single_batched seedFailEngine envNone cdRemote
    [sampleCookie] 0 (by rfl)
  ⟨h.1 (by simp), ((h.2.2 ⟨"Invalid cookie fields"⟩ (by simp) rfl).2 "https://example.org" "./x.json").1⟩

end GetCookies
